import Mathlib

/-!
Verification of the ghtraf command-line tool against its specification.

The development shallowly embeds the pure cores of the Python modules
`ghtraf/config.py`, `ghtraf/configure.py`, `ghtraf/gist.py`,
`ghtraf/commands/init.py` and `ghtraf/lib/log_lib/manager.py` as Lean
functions.  File and process I/O is made explicit: loaders take the read
outcome as an argument, savers return the value they would write, and
functions that print return the text they would print.
-/

set_option maxRecDepth 4000

namespace Ghtraf

/-! ## Python value model

JSON values as loaded by `json.load`, which is also how Python values
flow through the config code.  `jnull` plays the role of Python `None`
(JSON `null` loads as `None`, and `dict.get` returns `None` for an
absent key). -/

inductive JVal where
  | jnull : JVal
  | jbool (b : Bool) : JVal
  | jnum (n : Int) : JVal
  | jstr (s : String) : JVal
  | jarr (xs : List JVal) : JVal
  | jobj (kvs : List (String × JVal)) : JVal

namespace JVal

/-- Python `x is None` on a value. -/
def isNull : JVal → Bool
  | jnull => true
  | _ => false

/-- Python truthiness of a value (`if x:`). -/
def pyTruthy : JVal → Bool
  | jnull => false
  | jbool b => b
  | jnum n => n != 0
  | jstr s => s != ""
  | jarr [] => false
  | jarr (_ :: _) => true
  | jobj [] => false
  | jobj (_ :: _) => true

/-- Python `str()` of a value, as used by f-strings and `str(...)`. -/
def pyStr : JVal → String
  | jnull => "None"
  | jbool true => "True"
  | jbool false => "False"
  | jnum n => toString n
  | jstr s => s
  | jarr _ => "<list>"
  | jobj _ => "<dict>"

end JVal

open JVal

/-- A Python dict with string keys, as an association list (first binding
wins on lookup, as we never create duplicate keys). -/
abbrev Dict := List (String × JVal)

/-- `d.get(k, default)`. -/
def dictGetD (d : Dict) (k : String) (dflt : JVal) : JVal :=
  match d.lookup k with
  | some v => v
  | none => dflt

/-- `d.get(k)` (default `None`). -/
def dictGet (d : Dict) (k : String) : JVal :=
  dictGetD d k .jnull

/-- `d[k] = v`: replace the binding for `k` if present, else append
(Python dicts keep insertion order; updated keys keep their place). -/
def dictSet (d : Dict) (k : String) (v : JVal) : Dict :=
  match d with
  | [] => [(k, v)]
  | (k', v') :: rest =>
      if k' = k then (k', v) :: rest else (k', v') :: dictSet rest k v

/-- `d.setdefault(k, v)`: insert `k ↦ v` only if `k` is absent. -/
def dictSetdefault (d : Dict) (k : String) (v : JVal) : Dict :=
  if (d.lookup k).isSome then d else d ++ [(k, v)]

/-- Python `a or b` on values (returns `a` when truthy, else `b`). -/
def pyOr (a b : JVal) : JVal :=
  if pyTruthy a then a else b

/-- The entries of a value expected to be a dict.  The config code only
calls `.get` on values that are dicts; a non-dict here would raise
`AttributeError` in Python, a case outside every claim. -/
def asObj : JVal → Dict
  | .jobj kvs => kvs
  | _ => []

/-! ## `ghtraf/config.py` -/

/-- Outcome of `open(path)` followed by `json.load(f)` on one path.
This models the I/O layer: each path in the modelled filesystem either
yields a parsed value, or raises `FileNotFoundError` (missing file),
`json.JSONDecodeError` (malformed JSON), or `PermissionError`
(unreadable file). -/
inductive ReadOutcome where
  | ok (v : JVal) : ReadOutcome
  | fileNotFound : ReadOutcome
  | jsonDecodeError : ReadOutcome
  | permissionError : ReadOutcome

/-- A modelled filesystem: the read outcome at each path. -/
abbrev FS := String → ReadOutcome

/-- Result of running `load_json`: a returned value, or a propagated
exception (named by its Python class). -/
inductive LoadResult where
  | ok (v : JVal) : LoadResult
  | raised (exc : String) : LoadResult

/-- `load_json(path)`: `try: return json.load(open(path))` with
`except (FileNotFoundError, json.JSONDecodeError): return {}`.
Exactly these two exception classes are caught; any other exception
raised while opening or parsing propagates to the caller. -/
def load_json (fs : FS) (path : String) : LoadResult :=
  match fs path with
  | .ok v => .ok v
  | .fileNotFound => .ok (.jobj [])
  | .jsonDecodeError => .ok (.jobj [])
  | .permissionError => .raised "PermissionError"

/-- An `argparse` namespace: attribute name to value.  A pair being
present models `hasattr`; an attribute an option did not receive is
present with value `None` (`jnull`). -/
abbrev ArgNS := List (String × JVal)

/-- `hasattr(args, name)`. -/
def hasattrNS (args : ArgNS) (name : String) : Bool :=
  (args.lookup name).isSome

/-- `getattr(args, name, None)`. -/
def getattrNS (args : ArgNS) (name : String) : JVal :=
  match args.lookup name with
  | some v => v
  | none => .jnull

/-- Character map over a string (via its character list). -/
def mapChars (f : Char → Char) (s : String) : String :=
  String.mk (s.data.map f)

/-- Whether some character of a string satisfies a predicate. -/
def anyChar (p : Char → Bool) (s : String) : Bool :=
  s.data.any p

/-- `key.replace("-", "_")` (the source patterns are single characters,
so the replacement is a character map). -/
def argKeyOf (key : String) : String :=
  mapChars (fun c => if c = '-' then '_' else c) key

/-- `key.replace("_", "-") if "_" in key else key`. -/
def jsonKeyOf (key : String) : String :=
  if anyChar (fun c => c = '_') key then
    mapChars (fun c => if c = '_' then '-' else c) key
  else key

/-- `key.replace("-", "_") if "-" in key else key`. -/
def altJsonKeyOf (key : String) : String :=
  if anyChar (fun c => c = '-') key then
    mapChars (fun c => if c = '-' then '_' else c) key
  else key

/-- The `repo_key` computed at the top of `resolve_config`: the
`"owner/repo"` string when `args` has both attributes and both CLI
values are truthy, else `None`. -/
def resolveRepoKey (args : ArgNS) : Option String :=
  if hasattrNS args "owner" && hasattrNS args "repo" then
    let cli_owner := getattrNS args "owner"
    let cli_repo := getattrNS args "repo"
    if pyTruthy cli_owner && pyTruthy cli_repo then
      some (pyStr cli_owner ++ "/" ++ pyStr cli_repo)
    else none
  else none

/-- The `global_repo_cfg` dict of `resolve_config`:
`global_cfg.get("repos", {}).get(repo_key, {})` when a repo key was
built, else `{}`. -/
def globalRepoCfg (args : ArgNS) (global_cfg : Dict) : Dict :=
  match resolveRepoKey args with
  | some repo_key => asObj (dictGetD (asObj (dictGetD global_cfg "repos" (.jobj []))) repo_key (.jobj []))
  | none => []

/-- The body of the per-key loop of `resolve_config`: the value bound
to `resolved[arg_key]` for one requested key. -/
def resolveOneKey (args : ArgNS) (project_cfg global_repo_cfg : Dict)
    (key : String) : JVal :=
  let arg_key := argKeyOf key
  let cli_val := getattrNS args arg_key
  if !(isNull cli_val) then cli_val
  else
    let json_key := jsonKeyOf key
    let alt_json_key := altJsonKeyOf key
    let proj_val := pyOr (dictGet project_cfg json_key) (dictGet project_cfg alt_json_key)
    if !(isNull proj_val) then proj_val
    else
      let global_val := pyOr (dictGet global_repo_cfg json_key) (dictGet global_repo_cfg alt_json_key)
      if !(isNull global_val) then global_val
      else .jnull

/-- `resolve_config(args, keys)`, with the two loaded layers passed
explicitly (`project_cfg` is what `load_project_config` returned,
`global_cfg` what `load_global_config` returned).  Returns the
`resolved` dict. -/
def resolve_config (args : ArgNS) (keys : List String)
    (project_cfg global_cfg : Dict) : Dict :=
  let grc := globalRepoCfg args global_cfg
  keys.foldl (fun resolved key =>
    dictSet resolved (argKeyOf key) (resolveOneKey args project_cfg grc key)) []

/-- The optional keyword arguments of `register_repo_globally`
(each defaults to `None` in the source). -/
structure RegFields where
  badge_gist_id : JVal
  archive_gist_id : JVal
  repo_dir : JVal
  display_name : JVal
  created : JVal

/-- The entry update performed by `register_repo_globally`: each field
is written only when the argument is truthy (`if badge_gist_id:` etc.);
`repo_dir` is stored through `str(...)`. -/
def regUpdateEntry (entry : Dict) (f : RegFields) : Dict :=
  let e := if pyTruthy f.badge_gist_id then dictSet entry "badge_gist_id" f.badge_gist_id else entry
  let e := if pyTruthy f.archive_gist_id then dictSet e "archive_gist_id" f.archive_gist_id else e
  let e := if pyTruthy f.repo_dir then dictSet e "repo_dir" (.jstr (pyStr f.repo_dir)) else e
  let e := if pyTruthy f.display_name then dictSet e "display_name" f.display_name else e
  let e := if pyTruthy f.created then dictSet e "created" f.created else e
  e

/-- `register_repo_globally(owner, repo, ...)` with the loaded global
config passed explicitly; returns the config value passed to
`save_global_config` (the file written back in full). -/
def register_repo_globally (config : Dict) (owner repo : String)
    (f : RegFields) : Dict :=
  let config := dictSetdefault config "version" (.jnum 1)
  let config := dictSetdefault config "repos" (.jobj [])
  let repo_key := owner ++ "/" ++ repo
  let entry := asObj (dictGetD (asObj (dictGet config "repos")) repo_key (.jobj []))
  let entry := regUpdateEntry entry f
  dictSet config "repos" (.jobj (dictSet (asObj (dictGet config "repos")) repo_key (.jobj entry)))

/-- The entry stored for `owner/repo` in a global config value
(`config["repos"].get("owner/repo", {})`). -/
def globalEntry (config : Dict) (owner repo : String) : Dict :=
  asObj (dictGetD (asObj (dictGet config "repos")) (owner ++ "/" ++ repo) (.jobj []))

/-! ## Association-list lemmas -/

theorem lookup_dictSet_self (d : Dict) (k : String) (v : JVal) :
    (dictSet d k v).lookup k = some v := by
  induction d with
  | nil => simp [dictSet, List.lookup]
  | cons hd tl ih =>
      obtain ⟨k', v'⟩ := hd
      by_cases h : k' = k
      · subst h; simp [dictSet, List.lookup]
      · have hb : (k == k') = false := beq_eq_false_iff_ne.mpr (fun e => h e.symm)
        simp [dictSet, h, List.lookup, hb, ih]

theorem lookup_dictSet_ne (d : Dict) (k k' : String) (v : JVal) (h : k' ≠ k) :
    (dictSet d k v).lookup k' = d.lookup k' := by
  have hb : (k' == k) = false := beq_eq_false_iff_ne.mpr h
  induction d with
  | nil => simp [dictSet, List.lookup, hb]
  | cons hd tl ih =>
      obtain ⟨k₀, v₀⟩ := hd
      by_cases hk : k₀ = k
      · subst hk; simp [dictSet, List.lookup, hb]
      · simp only [dictSet, if_neg hk]
        cases hkk : (k' == k₀) <;> simp [List.lookup, hkk, ih]

theorem lookup_dictSetdefault_self (d : Dict) (k : String) (v : JVal) :
    ((dictSetdefault d k v).lookup k).isSome := by
  unfold dictSetdefault
  cases hs : (d.lookup k).isSome with
  | true => simp [hs]
  | false =>
      rw [if_neg (by simp)]
      rw [List.lookup_append]
      have hn : d.lookup k = none := by
        cases hl : d.lookup k with
        | none => rfl
        | some _ => rw [hl] at hs; simp at hs
      simp [hn, List.lookup]

theorem lookup_dictSetdefault_ne (d : Dict) (k k' : String) (v : JVal)
    (h : k' ≠ k) : (dictSetdefault d k v).lookup k' = d.lookup k' := by
  unfold dictSetdefault
  cases hs : (d.lookup k).isSome with
  | true => simp
  | false =>
      rw [if_neg (by simp)]
      rw [List.lookup_append]
      have hb : (k' == k) = false := beq_eq_false_iff_ne.mpr h
      cases hl : d.lookup k' with
      | some v' => simp [hl]
      | none => simp [hl, List.lookup, hb]

/-! ## Claim C4 — `load_json` error swallowing -/

/-- C4 counterexample: the claim says the loader never raises for a
missing or unreadable config file, but on a filesystem where the path
is unreadable (`PermissionError`), `load_json` propagates the
exception: only `FileNotFoundError` and `json.JSONDecodeError` are in
its `except` clause. -/
theorem C4_counterexample :
    load_json (fun _ => .permissionError) "/home/user/.ghtraf/config.json" =
      .raised "PermissionError" := rfl

/-- C4 (amended): `load_json` returns an empty mapping, rather than
raising, when the file is missing or contains malformed JSON; a read
failure outside those two classes (such as an unreadable file) is not
swallowed and propagates to the caller. -/
theorem C4_load_json_swallows_missing_and_malformed (fs : FS) (path : String)
    (h : fs path = .fileNotFound ∨ fs path = .jsonDecodeError) :
    load_json fs path = .ok (.jobj []) ∧
      ∀ fs' : FS, fs' path = .permissionError →
        load_json fs' path = .raised "PermissionError" := by
  constructor
  · cases h with
    | inl h => simp [load_json, h]
    | inr h => simp [load_json, h]
  · intro fs' h'
    simp [load_json, h']

/-- C4 witness: concrete missing file. -/
theorem C4_witness :
    load_json (fun _ => .fileNotFound) ".ghtraf.json" = .ok (.jobj []) ∧
      ∀ fs' : FS, fs' ".ghtraf.json" = .permissionError →
        load_json fs' ".ghtraf.json" = .raised "PermissionError" :=
  C4_load_json_swallows_missing_and_malformed (fun _ => .fileNotFound)
    ".ghtraf.json" (Or.inl rfl)

/-! ## Facts about `resolve_config` -/

theorem isNull_eq_true_iff (v : JVal) : isNull v = true ↔ v = .jnull := by
  cases v <;> simp [isNull]

theorem pyTruthy_jnull : pyTruthy .jnull = false := rfl

theorem isNull_of_pyTruthy (v : JVal) (h : pyTruthy v = true) :
    isNull v = false := by
  cases v <;> simp_all [pyTruthy, isNull]

theorem pyOr_of_truthy (a b : JVal) (h : pyTruthy a = true) : pyOr a b = a := by
  simp [pyOr, h]

/-- The fold in `resolve_config` does not touch keys no requested key
normalizes to. -/
theorem resolve_foldl_lookup_frame (args : ArgNS) (proj grc : Dict)
    (keys : List String) (init : Dict) (a : String)
    (h : ∀ key ∈ keys, argKeyOf key ≠ a) :
    (keys.foldl (fun resolved key =>
        dictSet resolved (argKeyOf key) (resolveOneKey args proj grc key))
      init).lookup a = init.lookup a := by
  induction keys generalizing init with
  | nil => rfl
  | cons k0 rest ih =>
      simp only [List.foldl_cons]
      rw [ih _ (fun key hk => h key (List.mem_cons_of_mem _ hk))]
      exact lookup_dictSet_ne _ _ _ _ (fun e => h k0 (List.mem_cons_self _ _) e.symm)

/-- Each requested key's entry in the `resolved` dict is exactly the
per-key resolution, independent of the other keys (provided no two
requested keys normalize to the same attribute name). -/
theorem resolve_config_lookup (args : ArgNS) (keys : List String)
    (project_cfg global_cfg : Dict) (key : String) (hk : key ∈ keys)
    (hnd : (keys.map argKeyOf).Nodup) :
    (resolve_config args keys project_cfg global_cfg).lookup (argKeyOf key) =
      some (resolveOneKey args project_cfg (globalRepoCfg args global_cfg) key) := by
  unfold resolve_config
  revert hk hnd
  generalize hinit : ([] : Dict) = init
  clear hinit
  induction keys generalizing init with
  | nil => intro hk _; cases hk
  | cons k0 rest ih =>
      intro hk hnd
      rw [List.map_cons, List.nodup_cons] at hnd
      obtain ⟨hnotin, hndr⟩ := hnd
      rcases List.mem_cons.mp hk with hk0 | hkr
      · subst hk0
        simp only [List.foldl_cons]
        rw [resolve_foldl_lookup_frame]
        · exact lookup_dictSet_self _ _ _
        · intro key' hk' e
          exact hnotin (e ▸ List.mem_map_of_mem argKeyOf hk')
      · simp only [List.foldl_cons]
        exact ih _ hkr hndr

/-! ## Claim C3 — config resolution precedence -/

/-- C3 counterexample: the key `repo_dir` is present in the project
file (hyphen spelling, value `""`, which is non-null) and in the
matching global entry (value `"g"`); with no CLI value for it the
claim says the project value wins, but the code's
`project_cfg.get(json_key) or project_cfg.get(alt_json_key)` treats
the falsy `""` as missing and resolution returns the global value. -/
theorem C3_counterexample :
    resolve_config
        [("owner", .jstr "acme"), ("repo", .jstr "widget"), ("repo_dir", .jnull)]
        ["repo_dir"]
        [("repo-dir", .jstr "")]
        [("repos", .jobj [("acme/widget", .jobj [("repo-dir", .jstr "g")])])] =
      [("repo_dir", .jstr "g")] ∧
    dictGet [("repo-dir", .jstr "")] "repo-dir" = .jstr "" ∧
    JVal.isNull (.jstr "") = false := by
  exact ⟨rfl, rfl, rfl⟩

/-- C3 (amended): for each requested key (requested keys normalizing to
distinct attribute names), the resolved entry is computed per key,
independently of the other keys, as: the CLI value when non-null, else
the project value `project.get(json_key) or project.get(alt_json_key)`
when non-null, else the global entry value computed the same way when
non-null, else null.  Because of the Python `or`, a falsy (empty or
zero) value under the first spelling is skipped in favor of the
alternate spelling or the next layer; a truthy project value always
beats the global layer, and a non-null CLI value always wins. -/
theorem C3_resolution_precedence (args : ArgNS) (keys : List String)
    (project_cfg global_cfg : Dict) (key : String) (hk : key ∈ keys)
    (hnd : (keys.map argKeyOf).Nodup) :
    (resolve_config args keys project_cfg global_cfg).lookup (argKeyOf key) =
        some (resolveOneKey args project_cfg (globalRepoCfg args global_cfg) key) ∧
    (isNull (getattrNS args (argKeyOf key)) = false →
      (resolve_config args keys project_cfg global_cfg).lookup (argKeyOf key) =
        some (getattrNS args (argKeyOf key))) ∧
    (isNull (getattrNS args (argKeyOf key)) = true →
      pyTruthy (dictGet project_cfg (jsonKeyOf key)) = true →
      (resolve_config args keys project_cfg global_cfg).lookup (argKeyOf key) =
        some (dictGet project_cfg (jsonKeyOf key))) ∧
    (isNull (getattrNS args (argKeyOf key)) = true →
      isNull (pyOr (dictGet project_cfg (jsonKeyOf key))
        (dictGet project_cfg (altJsonKeyOf key))) = true →
      isNull (pyOr (dictGet (globalRepoCfg args global_cfg) (jsonKeyOf key))
        (dictGet (globalRepoCfg args global_cfg) (altJsonKeyOf key))) = true →
      (resolve_config args keys project_cfg global_cfg).lookup (argKeyOf key) =
        some .jnull) := by
  have hbase := resolve_config_lookup args keys project_cfg global_cfg key hk hnd
  refine ⟨hbase, ?_, ?_, ?_⟩
  · intro hcli
    rw [hbase]
    simp [resolveOneKey, hcli]
  · intro hcli hproj
    rw [hbase]
    have hor := pyOr_of_truthy (dictGet project_cfg (jsonKeyOf key))
      (dictGet project_cfg (altJsonKeyOf key)) hproj
    simp [resolveOneKey, hcli, hor, isNull_of_pyTruthy _ hproj]
  · intro hcli hproj hglob
    rw [hbase]
    simp [resolveOneKey, hcli, hproj, hglob]

/-- C3 witness: with no CLI value, a key present in the project file
resolves to the project value. -/
theorem C3_witness :
    (resolve_config [("owner", .jnull)] ["owner"]
        [("owner", .jstr "acme")] []).lookup (argKeyOf "owner") =
      some (dictGet [("owner", .jstr "acme")] (jsonKeyOf "owner")) :=
  (C3_resolution_precedence [("owner", .jnull)] ["owner"]
      [("owner", .jstr "acme")] [] "owner" (by simp) (by simp)).2.2.1
    (by rfl) (by rfl)

/-! ## Claim C10 — the global layer needs CLI owner and repo -/

theorem resolveRepoKey_eq_none (args : ArgNS)
    (h : pyTruthy (getattrNS args "owner") = false ∨
         pyTruthy (getattrNS args "repo") = false) :
    resolveRepoKey args = none := by
  unfold resolveRepoKey
  cases hh : (hasattrNS args "owner" && hasattrNS args "repo")
  · simp
  · rcases h with h | h <;> simp [h]

theorem globalRepoCfg_eq_nil (args : ArgNS) (global_cfg : Dict)
    (h : pyTruthy (getattrNS args "owner") = false ∨
         pyTruthy (getattrNS args "repo") = false) :
    globalRepoCfg args global_cfg = [] := by
  unfold globalRepoCfg
  rw [resolveRepoKey_eq_none args h]

/-- C10: the `"owner/repo"` key into the global `repos` map is built
solely from the CLI namespace, so whenever the CLI lacks a usable owner
or repo value (in particular whenever one of them is null and would
have to come from the project file), the whole resolution is the one
computed with an empty global layer, and a key with no CLI and no
project value resolves to null. -/
theorem C10_global_needs_cli_owner_repo (args : ArgNS) (keys : List String)
    (project_cfg global_cfg : Dict)
    (h : isNull (getattrNS args "owner") = true ∨
         isNull (getattrNS args "repo") = true) :
    resolve_config args keys project_cfg global_cfg =
      resolve_config args keys project_cfg [] ∧
    ((keys.map argKeyOf).Nodup →
      ∀ key, key ∈ keys →
        isNull (getattrNS args (argKeyOf key)) = true →
        dictGet project_cfg (jsonKeyOf key) = .jnull →
        dictGet project_cfg (altJsonKeyOf key) = .jnull →
        (resolve_config args keys project_cfg global_cfg).lookup (argKeyOf key) =
          some .jnull) := by
  have hf : pyTruthy (getattrNS args "owner") = false ∨
      pyTruthy (getattrNS args "repo") = false := by
    rcases h with h | h
    · exact Or.inl (by rw [(isNull_eq_true_iff _).mp h]; rfl)
    · exact Or.inr (by rw [(isNull_eq_true_iff _).mp h]; rfl)
  have hg1 : globalRepoCfg args global_cfg = [] := globalRepoCfg_eq_nil args _ hf
  have hg2 : globalRepoCfg args [] = [] := globalRepoCfg_eq_nil args _ hf
  constructor
  · unfold resolve_config
    rw [hg1, hg2]
  · intro hnd key hk hcli hp1 hp2
    rw [resolve_config_lookup args keys project_cfg global_cfg key hk hnd]
    rw [hg1]
    have hnil : ∀ k, dictGet ([] : Dict) k = .jnull := fun _ => rfl
    have hc : getattrNS args (argKeyOf key) = .jnull := (isNull_eq_true_iff _).mp hcli
    simp [resolveOneKey, hc, hp1, hp2, hnil, pyOr, pyTruthy, isNull]

/-- C10 witness: with a null CLI owner, a populated global entry for
the would-be pair contributes nothing and an otherwise-absent key
resolves to null. -/
theorem C10_witness :
    (resolve_config [("owner", .jnull), ("repo", .jstr "widget"), ("x", .jnull)]
        ["x"] []
        [("repos", .jobj [("None/widget", .jobj [("x", .jstr "boom")])])] =
      resolve_config [("owner", .jnull), ("repo", .jstr "widget"), ("x", .jnull)]
        ["x"] [] []) ∧
    (resolve_config [("owner", .jnull), ("repo", .jstr "widget"), ("x", .jnull)]
        ["x"] []
        [("repos", .jobj [("None/widget", .jobj [("x", .jstr "boom")])])]).lookup
        (argKeyOf "x") = some .jnull := by
  have h := C10_global_needs_cli_owner_repo
    [("owner", .jnull), ("repo", .jstr "widget"), ("x", .jnull)] ["x"] []
    [("repos", .jobj [("None/widget", .jobj [("x", .jstr "boom")])])]
    (Or.inl rfl)
  exact ⟨h.1, h.2 (by simp) "x" (by simp) rfl rfl rfl⟩

/-! ## Claim C5 — global registration is additive -/

theorem lookup_condSet (d : Dict) (b : Bool) (k name : String) (v : JVal)
    (h : name = k → b = false) :
    (if b then dictSet d k v else d).lookup name = d.lookup name := by
  cases hb : b
  · simp
  · rw [if_pos rfl]
    have hne : name ≠ k := fun e => by rw [h e] at hb; cases hb
    exact lookup_dictSet_ne _ _ _ _ hne

/-- The two `setdefault` calls at the top of `register_repo_globally`
do not change the entry for any repo key. -/
theorem globalEntry_setdefaults (config : Dict) (owner repo : String) :
    globalEntry (dictSetdefault (dictSetdefault config "version" (.jnum 1))
        "repos" (.jobj [])) owner repo =
      globalEntry config owner repo := by
  unfold globalEntry
  have h1 : (dictSetdefault config "version" (.jnum 1)).lookup "repos" =
      config.lookup "repos" :=
    lookup_dictSetdefault_ne _ _ _ _ (by decide)
  set c1 := dictSetdefault config "version" (.jnum 1) with hc1
  unfold dictSetdefault
  cases hs : (c1.lookup "repos").isSome
  · rw [if_neg (by simp)]
    have hn : c1.lookup "repos" = none := by
      cases hl : c1.lookup "repos" with
      | none => rfl
      | some _ => rw [hl] at hs; simp at hs
    have hcfg : config.lookup "repos" = none := by rw [← h1]; exact hn
    have happ : (c1 ++ [("repos", JVal.jobj [])]).lookup "repos" =
        some (.jobj []) := by
      rw [List.lookup_append, hn]
      simp [List.lookup]
    simp [dictGet, dictGetD, happ, hcfg, asObj, List.lookup]
  · rw [if_pos rfl]
    simp [dictGet, dictGetD, h1]

/-- The entry written by `register_repo_globally` for its own repo key
is the field-update of the previously stored entry. -/
theorem dictGet_dictSet_self (d : Dict) (k : String) (v : JVal) :
    dictGet (dictSet d k v) k = v := by
  rw [dictGet, dictGetD, lookup_dictSet_self]

theorem dictGetD_dictSet_self (d : Dict) (k : String) (v dflt : JVal) :
    dictGetD (dictSet d k v) k dflt = v := by
  rw [dictGetD, lookup_dictSet_self]

theorem globalEntry_register (config : Dict) (owner repo : String)
    (f : RegFields) :
    globalEntry (register_repo_globally config owner repo f) owner repo =
      regUpdateEntry (globalEntry config owner repo) f := by
  have step : globalEntry (register_repo_globally config owner repo f)
      owner repo =
      regUpdateEntry
        (globalEntry (dictSetdefault (dictSetdefault config "version" (.jnum 1))
          "repos" (.jobj [])) owner repo) f := by
    simp only [register_repo_globally, globalEntry, dictGet_dictSet_self, asObj,
      dictGetD_dictSet_self]
  rw [step, globalEntry_setdefaults]

theorem regUpdateEntry_frame (entry : Dict) (f : RegFields) (name : String)
    (h1 : name = "badge_gist_id" → pyTruthy f.badge_gist_id = false)
    (h2 : name = "archive_gist_id" → pyTruthy f.archive_gist_id = false)
    (h3 : name = "repo_dir" → pyTruthy f.repo_dir = false)
    (h4 : name = "display_name" → pyTruthy f.display_name = false)
    (h5 : name = "created" → pyTruthy f.created = false) :
    (regUpdateEntry entry f).lookup name = entry.lookup name := by
  unfold regUpdateEntry
  rw [lookup_condSet _ _ _ _ _ h5, lookup_condSet _ _ _ _ _ h4,
    lookup_condSet _ _ _ _ _ h3, lookup_condSet _ _ _ _ _ h2,
    lookup_condSet _ _ _ _ _ h1]

/-- C5 counterexample: the claim's two-call scenario fails when field A
is the non-null empty string: `register_repo_globally` tests each
argument with Python truthiness (`if badge_gist_id:`), so a first call
with `badge_gist_id=""` (non-null, hence "set" per the claim) stores
nothing, and after the second call (archive id only) the entry lacks
field A. -/
theorem C5_counterexample :
    globalEntry
        (register_repo_globally
          (register_repo_globally [] "o" "r"
            ⟨.jstr "", .jnull, .jnull, .jnull, .jnull⟩)
          "o" "r" ⟨.jnull, .jstr "ag", .jnull, .jnull, .jnull⟩)
        "o" "r" = [("archive_gist_id", .jstr "ag")] ∧
    (globalEntry
        (register_repo_globally
          (register_repo_globally [] "o" "r"
            ⟨.jstr "", .jnull, .jnull, .jnull, .jnull⟩)
          "o" "r" ⟨.jnull, .jstr "ag", .jnull, .jnull, .jnull⟩)
        "o" "r").lookup "badge_gist_id" = none ∧
    JVal.isNull (.jstr "") = false :=
  ⟨rfl, rfl, rfl⟩

/-- C5 (amended): a second `register_repo_globally` call overwrites only
the fields passed as truthy arguments (Python truthiness, so a non-null
but empty value is ignored like null), and leaves every other field of
the existing entry unchanged — a field is never cleared by omission; in
particular, calling first with a truthy field A and then with a truthy
field B (A omitted) leaves both A and B present in the final entry. -/
theorem C5_register_additive (config : Dict) (owner repo : String)
    (f : RegFields) (A B : JVal) (hA : pyTruthy A = true)
    (hB : pyTruthy B = true) :
    (∀ name : String,
      (name = "badge_gist_id" → pyTruthy f.badge_gist_id = false) →
      (name = "archive_gist_id" → pyTruthy f.archive_gist_id = false) →
      (name = "repo_dir" → pyTruthy f.repo_dir = false) →
      (name = "display_name" → pyTruthy f.display_name = false) →
      (name = "created" → pyTruthy f.created = false) →
      (globalEntry (register_repo_globally config owner repo f) owner repo).lookup
          name =
        (globalEntry config owner repo).lookup name) ∧
    ((globalEntry
        (register_repo_globally
          (register_repo_globally config owner repo
            ⟨A, .jnull, .jnull, .jnull, .jnull⟩)
          owner repo ⟨.jnull, B, .jnull, .jnull, .jnull⟩)
        owner repo).lookup "badge_gist_id" = some A ∧
     (globalEntry
        (register_repo_globally
          (register_repo_globally config owner repo
            ⟨A, .jnull, .jnull, .jnull, .jnull⟩)
          owner repo ⟨.jnull, B, .jnull, .jnull, .jnull⟩)
        owner repo).lookup "archive_gist_id" = some B) := by
  constructor
  · intro name hn1 hn2 hn3 hn4 hn5
    rw [globalEntry_register]
    exact regUpdateEntry_frame _ _ _ hn1 hn2 hn3 hn4 hn5
  · rw [globalEntry_register, globalEntry_register]
    have e1 : regUpdateEntry (globalEntry config owner repo)
        ⟨A, .jnull, .jnull, .jnull, .jnull⟩ =
        dictSet (globalEntry config owner repo) "badge_gist_id" A := by
      simp [regUpdateEntry, hA, pyTruthy_jnull]
    have e2 : ∀ entry : Dict, regUpdateEntry entry
        ⟨.jnull, B, .jnull, .jnull, .jnull⟩ =
        dictSet entry "archive_gist_id" B := by
      intro entry
      simp [regUpdateEntry, hB, pyTruthy_jnull]
    rw [e1, e2]
    constructor
    · rw [lookup_dictSet_ne _ _ _ _ (by decide)]
      exact lookup_dictSet_self _ _ _
    · exact lookup_dictSet_self _ _ _

/-- C5 witness: concrete two-call scenario with truthy gist ids on an
initially empty global config. -/
theorem C5_witness :
    (globalEntry
        (register_repo_globally
          (register_repo_globally [] "acme" "widget"
            ⟨.jstr "b1", .jnull, .jnull, .jnull, .jnull⟩)
          "acme" "widget" ⟨.jnull, .jstr "a1", .jnull, .jnull, .jnull⟩)
        "acme" "widget").lookup "badge_gist_id" = some (.jstr "b1") ∧
    (globalEntry
        (register_repo_globally
          (register_repo_globally [] "acme" "widget"
            ⟨.jstr "b1", .jnull, .jnull, .jnull, .jnull⟩)
          "acme" "widget" ⟨.jnull, .jstr "a1", .jnull, .jnull, .jnull⟩)
        "acme" "widget").lookup "archive_gist_id" = some (.jstr "a1") :=
  (C5_register_additive [] "acme" "widget"
      ⟨.jnull, .jnull, .jnull, .jnull, .jnull⟩
      (.jstr "b1") (.jstr "a1") (by decide) (by decide)).2

/-! ## `str.format` with named placeholders

The messages and templates in this code base use only plain `{name}`
placeholders (no format specs, no `\x7b\x7b` escapes); a key not in the
mapping would raise `KeyError` in Python and is not exercised by any
theorem below (modelled as the empty string). -/

/-- Substitute `\x7bname\x7d` placeholders from `vals` in a character
list.  The second argument is the scanner state: `none` outside a
placeholder, `some acc` while collecting a placeholder name (in
reverse). -/
def pyFormatChars (vals : List (String × String)) :
    List Char → Option (List Char) → List Char
  | [], _ => []
  | c :: rest, none =>
      if c = '{' then pyFormatChars vals rest (some [])
      else c :: pyFormatChars vals rest none
  | c :: rest, some acc =>
      if c = '}' then
        ((vals.lookup (String.mk acc.reverse)).getD "").data ++
          pyFormatChars vals rest none
      else pyFormatChars vals rest (some (c :: acc))

/-- `message.format(**vals)`. -/
def pyFormat (message : String) (vals : List (String × String)) : String :=
  String.mk (pyFormatChars vals message.data none)

/-! ## `ghtraf/lib/log_lib/manager.py` -/

/-- The verbosity state of an `OutputManager` (the output file handle
and the shown-hints set are modelled separately). -/
structure OutputManager where
  verbosity : Int
  channel_overrides : List (String × Int)

/-- `self.channel_overrides.get(channel, self.verbosity)`. -/
def thresholdFor (m : OutputManager) (channel : String) : Int :=
  match m.channel_overrides.lookup channel with
  | some t => t
  | none => m.verbosity

/-- `OutputManager.emit(level, message, channel=..., **kwargs)`: returns
the line printed to the output stream, or `none` when the message is
suppressed. -/
def emit (m : OutputManager) (level : Int) (message : String)
    (channel : String) (kwargs : List (String × String)) : Option String :=
  let threshold := thresholdFor m channel
  if threshold ≤ -4 then none
  else if level > threshold then none
  else some (if kwargs.isEmpty then message else pyFormat message kwargs)

/-- `OutputManager.error(message)` is `emit(-3, message, channel='error')`. -/
def errorEmit (m : OutputManager) (message : String) : Option String :=
  emit m (-3) message "error" []

/-! ## Claim C2 — emit threshold rule and the `-4` hard wall -/

/-- C2 counterexample: with global verbosity `-4` and a per-channel
override `timing: 2`, a level-2 message on `timing` is written — the
override is resolved first and the `<= -4` wall is tested on the
resolved threshold, so a global `-4` does not silence an overridden
channel (the repo's own test `test_hard_wall_overrides_channel` pins
this behavior). -/
theorem C2_counterexample :
    emit ⟨-4, [("timing", 2)]⟩ 2 "should show" "timing" [] =
      some "should show" := by decide

/-- C2 (amended): `emit` writes the message if and only if the
effective threshold — the channel's override if set, else the global
verbosity — is above `-4` and `level <= threshold`; consequently a
global verbosity of `-4` suppresses every channel that has no override
(and any channel whose own override is `<= -4`), but not a channel
with an override above `-4`. -/
theorem C2_emit_threshold (m : OutputManager) (level : Int)
    (message channel : String) (kwargs : List (String × String)) :
    ((emit m level message channel kwargs).isSome ↔
      (-4 < thresholdFor m channel ∧ level ≤ thresholdFor m channel)) ∧
    (m.channel_overrides.lookup channel = none → m.verbosity = -4 →
      emit m level message channel kwargs = none) ∧
    (thresholdFor m channel ≤ -4 →
      emit m level message channel kwargs = none) := by
  refine ⟨?_, ?_, ?_⟩
  · unfold emit
    by_cases h1 : thresholdFor m channel ≤ -4
    · rw [if_pos h1]
      constructor
      · intro hs
        exact absurd hs (by simp)
      · intro hand
        exact absurd hand (by omega)
    · by_cases h2 : level > thresholdFor m channel
      · rw [if_neg h1, if_pos h2]
        constructor
        · intro hs
          exact absurd hs (by simp)
        · intro hand
          exact absurd hand (by omega)
      · rw [if_neg h1, if_neg h2]
        constructor
        · intro _
          omega
        · intro _
          rfl
  · intro hov hv
    have ht : thresholdFor m channel = -4 := by
      unfold thresholdFor; rw [hov, hv]
    unfold emit
    simp [ht]
  · intro ht
    unfold emit
    simp [ht]

/-- C2 witness: with no override, global verbosity `-4` silences even
an error-level message. -/
theorem C2_witness :
    emit ⟨-4, []⟩ (-3) "blocked error" "error" [] = none :=
  (C2_emit_threshold ⟨-4, []⟩ (-3) "blocked error" "error" []).2.1 rfl rfl

/-! ## `ghtraf/lib/log_lib/hints.py` and `OutputManager.hint` -/

/-- A registered hint (`Hint` dataclass). -/
structure Hint where
  id : String
  message : String
  context : List String
  min_level : Int
  category : String

/-- The global hint registry `_HINTS`, keyed by hint id. -/
abbrev HintRegistry := List (String × Hint)

/-- `get_hint(hint_id)`: `_HINTS.get(hint_id)`. -/
def get_hint (reg : HintRegistry) (hint_id : String) : Option Hint :=
  reg.lookup hint_id

/-- The part of `OutputManager.hint` after the registry lookup:
context filter, message rendering, threshold check, print, and the mark
in `_shown_hints`. -/
def hintAfterLookup (m : OutputManager) (shown : List String)
    (context : String) (kwargs : List (String × String)) (hint_id : String) :
    Option Hint → Option String × List String
  | none => (none, shown)
  | some h =>
      if h.context.contains context = false then (none, shown)
      else
        let text := if kwargs.isEmpty then h.message else pyFormat h.message kwargs
        let threshold := thresholdFor m "hint"
        if threshold ≤ -4 then (none, shown)
        else if h.min_level > threshold then (none, shown)
        else (some text, hint_id :: shown)

/-- `OutputManager.hint(hint_id, context, **kwargs)`: returns the line
printed (or `none`) together with the updated `_shown_hints` set
(modelled as a list queried by membership). -/
def hintCall (m : OutputManager) (shown : List String) (reg : HintRegistry)
    (hint_id context : String) (kwargs : List (String × String)) :
    Option String × List String :=
  if shown.contains hint_id then (none, shown)
  else hintAfterLookup m shown context kwargs hint_id (get_hint reg hint_id)

/-! ## Claim C9 — hint gating and one-shot semantics -/

theorem hintCall_of_shown (m : OutputManager) (shown : List String)
    (reg : HintRegistry) (hint_id context : String)
    (kwargs : List (String × String)) (hsh : shown.contains hint_id = true) :
    hintCall m shown reg hint_id context kwargs = (none, shown) := by
  unfold hintCall
  rw [if_pos hsh]

theorem hintCall_unregistered (m : OutputManager) (shown : List String)
    (reg : HintRegistry) (hint_id context : String)
    (kwargs : List (String × String)) (hng : get_hint reg hint_id = none) :
    hintCall m shown reg hint_id context kwargs = (none, shown) := by
  unfold hintCall
  rw [hng]
  by_cases hsh : shown.contains hint_id = true
  · rw [if_pos hsh]
  · rw [if_neg hsh]
    rfl

theorem hintCall_wrong_context (m : OutputManager) (shown : List String)
    (reg : HintRegistry) (hint_id context : String)
    (kwargs : List (String × String)) (h : Hint)
    (hg : get_hint reg hint_id = some h)
    (hctx : h.context.contains context = false) :
    hintCall m shown reg hint_id context kwargs = (none, shown) := by
  unfold hintCall
  rw [hg]
  simp only [hintAfterLookup]
  rw [hctx]
  by_cases hsh : shown.contains hint_id = true
  · rw [if_pos hsh]
  · rw [if_neg hsh, if_pos rfl]

theorem hintCall_below_threshold (m : OutputManager) (shown : List String)
    (reg : HintRegistry) (hint_id context : String)
    (kwargs : List (String × String)) (h : Hint)
    (hg : get_hint reg hint_id = some h)
    (hth : thresholdFor m "hint" ≤ -4 ∨ thresholdFor m "hint" < h.min_level) :
    hintCall m shown reg hint_id context kwargs = (none, shown) := by
  unfold hintCall
  rw [hg]
  simp only [hintAfterLookup]
  by_cases hsh : shown.contains hint_id = true
  · rw [if_pos hsh]
  · rw [if_neg hsh]
    by_cases hctx : h.context.contains context = false
    · rw [if_pos hctx]
    · rw [if_neg hctx]
      by_cases h1 : thresholdFor m "hint" ≤ -4
      · rw [if_pos h1]
      · have h2 : h.min_level > thresholdFor m "hint" := by
          rcases hth with hth | hth
          · omega
          · omega
        rw [if_neg h1, if_pos h2]

theorem hintCall_fires (m : OutputManager) (shown : List String)
    (reg : HintRegistry) (hint_id context : String)
    (kwargs : List (String × String)) (h : Hint)
    (hg : get_hint reg hint_id = some h)
    (hsh : shown.contains hint_id = false)
    (hctx : h.context.contains context = true)
    (hwall : -4 < thresholdFor m "hint")
    (hlev : h.min_level ≤ thresholdFor m "hint") :
    hintCall m shown reg hint_id context kwargs =
      (some (if kwargs.isEmpty then h.message else pyFormat h.message kwargs),
        hint_id :: shown) := by
  unfold hintCall
  rw [hg]
  simp only [hintAfterLookup]
  rw [if_neg (show ¬ shown.contains hint_id = true by
      rw [hsh]; exact Bool.false_ne_true),
    if_neg (show ¬ h.context.contains context = false by
      rw [hctx]; exact fun e => Bool.false_ne_true e.symm),
    if_neg (show ¬ thresholdFor m "hint" ≤ -4 by omega),
    if_neg (show ¬ h.min_level > thresholdFor m "hint" by omega)]

/-- C9: `hint` is a silent no-op for an unregistered id, an
already-shown id, a context outside the hint's context set, or a
failed threshold check; otherwise it prints the rendered message and
marks the id shown, and once an id has fired, any further call for it
is a no-op (at most once per process lifetime). -/
theorem C9_hint_gating (m : OutputManager) (shown : List String)
    (reg : HintRegistry) (hint_id context : String)
    (kwargs : List (String × String)) :
    (get_hint reg hint_id = none →
      hintCall m shown reg hint_id context kwargs = (none, shown)) ∧
    (shown.contains hint_id = true →
      hintCall m shown reg hint_id context kwargs = (none, shown)) ∧
    (∀ h, get_hint reg hint_id = some h → h.context.contains context = false →
      hintCall m shown reg hint_id context kwargs = (none, shown)) ∧
    (∀ h, get_hint reg hint_id = some h →
      (thresholdFor m "hint" ≤ -4 ∨ thresholdFor m "hint" < h.min_level) →
      hintCall m shown reg hint_id context kwargs = (none, shown)) ∧
    (∀ h, get_hint reg hint_id = some h → shown.contains hint_id = false →
      h.context.contains context = true → -4 < thresholdFor m "hint" →
      h.min_level ≤ thresholdFor m "hint" →
      hintCall m shown reg hint_id context kwargs =
        (some (if kwargs.isEmpty then h.message else pyFormat h.message kwargs),
          hint_id :: shown)) ∧
    (∀ out shown', hintCall m shown reg hint_id context kwargs = (out, shown') →
      out.isSome = true →
      (hintCall m shown' reg hint_id context kwargs).1 = none) := by
  refine ⟨?_, ?_, ?_, ?_, ?_, ?_⟩
  · exact hintCall_unregistered m shown reg hint_id context kwargs
  · exact hintCall_of_shown m shown reg hint_id context kwargs
  · exact fun h hg hctx =>
      hintCall_wrong_context m shown reg hint_id context kwargs h hg hctx
  · exact fun h hg hth =>
      hintCall_below_threshold m shown reg hint_id context kwargs h hg hth
  · exact fun h hg hsh hctx hwall hlev =>
      hintCall_fires m shown reg hint_id context kwargs h hg hsh hctx hwall hlev
  · intro out shown' hcall hsome
    by_cases hsh : shown.contains hint_id = true
    · rw [hintCall_of_shown m shown reg hint_id context kwargs hsh] at hcall
      cases hcall
      simp at hsome
    · have hsh' : shown.contains hint_id = false := by
        cases h : shown.contains hint_id
        · rfl
        · exact absurd h hsh
      cases hg : get_hint reg hint_id with
      | none =>
          rw [hintCall_unregistered m shown reg hint_id context kwargs hg]
            at hcall
          cases hcall
          simp at hsome
      | some h =>
          by_cases hctx : h.context.contains context = true
          · by_cases h1 : thresholdFor m "hint" ≤ -4
            · rw [hintCall_below_threshold m shown reg hint_id context kwargs h
                hg (Or.inl h1)] at hcall
              cases hcall
              simp at hsome
            · by_cases h2 : h.min_level ≤ thresholdFor m "hint"
              · rw [hintCall_fires m shown reg hint_id context kwargs h hg hsh'
                  hctx (by omega) h2] at hcall
                cases hcall
                rw [hintCall_of_shown m _ reg hint_id context kwargs (by simp)]
              · rw [hintCall_below_threshold m shown reg hint_id context kwargs
                  h hg (Or.inr (by omega))] at hcall
                cases hcall
                simp at hsome
          · have hctx' : h.context.contains context = false := by
              cases hc : h.context.contains context
              · rfl
              · exact absurd hc hctx
            rw [hintCall_wrong_context m shown reg hint_id context kwargs h hg
              hctx'] at hcall
            cases hcall
            simp at hsome

/-- C9 witness: a registered hint in the right context at default
verbosity fires once, and a second call with the updated shown set is
a no-op. -/
theorem C9_witness :
    hintCall ⟨0, []⟩ [] [("setup.configure", ⟨"setup.configure",
        "Run create --configure next", ["result"], 0, "setup"⟩)]
      "setup.configure" "result" [] =
      (some "Run create --configure next", ["setup.configure"]) ∧
    (hintCall ⟨0, []⟩ ["setup.configure"] [("setup.configure",
        ⟨"setup.configure", "Run create --configure next", ["result"], 0,
          "setup"⟩)]
      "setup.configure" "result" []).1 = none := by
  constructor
  · exact (C9_hint_gating ⟨0, []⟩ [] [("setup.configure", ⟨"setup.configure",
        "Run create --configure next", ["result"], 0, "setup"⟩)]
      "setup.configure" "result" []).2.2.2.2.1 _ rfl rfl rfl (by decide)
      (by decide)
  · exact (C9_hint_gating ⟨0, []⟩ ["setup.configure"] [("setup.configure",
        ⟨"setup.configure", "Run create --configure next", ["result"], 0,
          "setup"⟩)]
      "setup.configure" "result" []).2.1 rfl ▸ rfl

/-! ## `ghtraf/gist.py` -/

/-- `build_initial_state()`: the initial empty `state.json` structure. -/
def build_initial_state : JVal :=
  .jobj [
    ("totalClones", .jnum 0),
    ("totalUniqueClones", .jnum 0),
    ("totalDownloads", .jnum 0),
    ("totalViews", .jnum 0),
    ("totalUniqueViews", .jnum 0),
    ("totalCiCheckouts", .jnum 0),
    ("totalCiUniqueClones", .jnum 0),
    ("totalOrganicUniqueClones", .jnum 0),
    ("previousTotalDownloads", .jnum 0),
    ("_previousCiUniqueToday", .jnum 0),
    ("stars", .jnum 0),
    ("forks", .jnum 0),
    ("openIssues", .jnum 0),
    ("lastSeenDates", .jarr []),
    ("lastSeenViewDates", .jarr []),
    ("dailyHistory", .jarr []),
    ("ciCheckouts", .jobj []),
    ("referrers", .jarr []),
    ("popularPaths", .jarr [])]

/-- `build_badge(label, message="0", color="blue")`: a shields.io
endpoint badge document (defaults passed explicitly at call sites). -/
def build_badge (label message color : String) : JVal :=
  .jobj [
    ("schemaVersion", .jnum 1),
    ("label", .jstr label),
    ("message", .jstr message),
    ("color", .jstr color)]

/-- A gist-creation request as posted to `gh api gists` (file contents
kept as JSON values; the source serializes them with
`json.dumps(..., indent=2)`, which is injective on this data and not
modelled). -/
structure GistRequest where
  description : String
  public : Bool
  files : List (String × JVal)

/-- The payload built by `create_badge_gist` (non-dry-run path):
`"public": True` and the five files. -/
def badgeGistRequest (config : Dict) : GistRequest :=
  { description := pyStr (dictGet config "gh_repo") ++ " traffic badges"
    public := true
    files := [
      ("state.json", build_initial_state),
      ("installs.json", build_badge "installs" "0" "blue"),
      ("downloads.json", build_badge "downloads" "0" "blue"),
      ("clones.json", build_badge "clones" "0" "blue"),
      ("views.json", build_badge "views" "0" "blue")] }

/-- The payload built by `create_archive_gist` (non-dry-run path):
`"public": False` and the single archive file. -/
def archiveGistRequest (config : Dict) : GistRequest :=
  { description := pyStr (dictGet config "gh_repo") ++ " traffic archive"
    public := false
    files := [
      ("archive.json", .jobj [
        ("repo", dictGet config "gh_repo"),
        ("description", .jstr ("Monthly traffic archive for " ++
          pyStr (dictGet config "gh_repo"))),
        ("archives", .jarr [])])] }

/-- `create_badge_gist(config, dry_run)`: the creation request issued,
or `none` in dry-run mode (which prints the would-be file list and
returns a placeholder id without contacting the API). -/
def create_badge_gist (config : Dict) (dry_run : Bool) : Option GistRequest :=
  if dry_run then none else some (badgeGistRequest config)

/-- `create_archive_gist(config, dry_run)`: the creation request
issued, or `none` in dry-run mode. -/
def create_archive_gist (config : Dict) (dry_run : Bool) : Option GistRequest :=
  if dry_run then none else some (archiveGistRequest config)

/-! ## Claim C6 — store visibility invariants -/

/-- C6: whatever the configuration and flags, a badge-store creation
request always carries public visibility and an archive-store creation
request always carries non-public ("unlisted") visibility; no input
reaches the `public` field of either payload. -/
theorem C6_gist_visibility (config : Dict) (dry_run : Bool) :
    (∀ r, create_badge_gist config dry_run = some r → r.public = true) ∧
    (∀ r, create_archive_gist config dry_run = some r → r.public = false) := by
  constructor
  · intro r hr
    unfold create_badge_gist at hr
    cases hd : dry_run
    · rw [hd] at hr
      rw [if_neg (by simp)] at hr
      cases hr
      rfl
    · rw [hd] at hr
      simp at hr
  · intro r hr
    unfold create_archive_gist at hr
    cases hd : dry_run
    · rw [hd] at hr
      rw [if_neg (by simp)] at hr
      cases hr
      rfl
    · rw [hd] at hr
      simp at hr

/-- C6 witness: concrete non-dry-run requests carry the fixed
visibilities. -/
theorem C6_witness :
    (badgeGistRequest [("gh_repo", .jstr "acme/widget")]).public = true ∧
    (archiveGistRequest [("gh_repo", .jstr "acme/widget")]).public = false :=
  ⟨(C6_gist_visibility [("gh_repo", .jstr "acme/widget")] false).1 _ rfl,
   (C6_gist_visibility [("gh_repo", .jstr "acme/widget")] false).2 _ rfl⟩

/-! ## Claim C8 — initial badge-store schema -/

/-- A value that is the integer zero. -/
def isZeroNum : JVal → Bool
  | .jnum 0 => true
  | _ => false

/-- A value that is an empty list or empty map. -/
def isEmptyListOrMap : JVal → Bool
  | .jarr [] => true
  | .jobj [] => true
  | _ => false

/-- C8: the initial badge-store state document has exactly the fixed
field set (the 13 numeric counters, the 5 list fields and the 1 map
field, in this order — no more, no fewer), every numeric field is zero
and every list/map field is empty; and every single-metric badge
document has exactly the shape
`\x7bschemaVersion: 1, label, message, color\x7d`, as instantiated by the
four badge files of the badge-store request. -/
theorem C8_initial_state_schema :
    (asObj build_initial_state).map Prod.fst =
      ["totalClones", "totalUniqueClones", "totalDownloads", "totalViews",
       "totalUniqueViews", "totalCiCheckouts", "totalCiUniqueClones",
       "totalOrganicUniqueClones", "previousTotalDownloads",
       "_previousCiUniqueToday", "stars", "forks", "openIssues",
       "lastSeenDates", "lastSeenViewDates", "dailyHistory", "ciCheckouts",
       "referrers", "popularPaths"] ∧
    ((asObj build_initial_state).all
      (fun kv => isZeroNum kv.2 || isEmptyListOrMap kv.2)) = true ∧
    (∀ label message color : String, build_badge label message color =
      .jobj [("schemaVersion", .jnum 1), ("label", .jstr label),
        ("message", .jstr message), ("color", .jstr color)]) ∧
    (badgeGistRequest []).files.map Prod.fst =
      ["state.json", "installs.json", "downloads.json", "clones.json",
        "views.json"] := by
  refine ⟨rfl, rfl, fun _ _ _ => rfl, rfl⟩

/-! ## A regex fragment and `re.subn(pattern, repl, s, count=1)`

`ghtraf/configure.py` edits files with `re.subn(..., count=1)`.  The
patterns it uses are built from literals, `.` (which does not match a
newline), negated character classes, lazy `*?` and `+?`, and greedy
`+`; this fragment is embedded below with Python's backtracking
preference order (leftmost match; lazy prefers fewer repetitions,
greedy prefers more).  Replacement strings contain no backslashes in
this code base, so the replacement-escape processing of `re.subn` is
the identity and is not modelled. -/

inductive Rx where
  | eps : Rx
  | lit (c : Char) : Rx
  | anyNoNl : Rx
  | notOf (cs : List Char) : Rx
  | seq (a b : Rx) : Rx
  | lazyStar (r : Rx) : Rx
  | lazyPlus (r : Rx) : Rx
  | greedyPlus (r : Rx) : Rx

/-- Backtracking matcher in continuation style: `mch fuel r s k`
matches `r` against a prefix of `s` and hands the rest to `k`, trying
alternatives in Python's preference order.  `fuel` bounds the
backtracking depth (enough fuel is supplied at every use site; the
source's regexes always terminate). -/
def mch (fuel : Nat) (r : Rx) (s : List Char)
    (k : List Char → Option (List Char)) : Option (List Char) :=
  match fuel with
  | 0 => none
  | fuel + 1 =>
    match r with
    | .eps => k s
    | .lit c =>
        match s with
        | [] => none
        | c' :: s' => if c' = c then k s' else none
    | .anyNoNl =>
        match s with
        | [] => none
        | c' :: s' => if c' = '\n' then none else k s'
    | .notOf cs =>
        match s with
        | [] => none
        | c' :: s' => if cs.contains c' then none else k s'
    | .seq a b => mch fuel a s (fun s' => mch fuel b s' k)
    | .lazyStar r' =>
        (k s).orElse (fun _ =>
          mch fuel r' s (fun s' => mch fuel (.lazyStar r') s' k))
    | .lazyPlus r' => mch fuel r' s (fun s' => mch fuel (.lazyStar r') s' k)
    | .greedyPlus r' =>
        mch fuel r' s (fun s' =>
          (mch fuel (.greedyPlus r') s' k).orElse (fun _ => k s'))

/-- Try to match `p` at the start of `s`; on success return the rest of
the input after the preferred match. -/
def matchAt (fuel : Nat) (p : Rx) (s : List Char) : Option (List Char) :=
  mch fuel p s (fun rem => some rem)

/-- Scan left to right for the first position where `p` matches and
splice in `repl` there; `none` when `p` matches nowhere. -/
def subn1Aux (fuel : Nat) (p : Rx) (repl : List Char) :
    List Char → Option (List Char)
  | [] =>
      match matchAt fuel p [] with
      | some rem => some (repl ++ rem)
      | none => none
  | c :: cs =>
      match matchAt fuel p (c :: cs) with
      | some rem => some (repl ++ rem)
      | none => (subn1Aux fuel p repl cs).map (fun out => c :: out)

/-- `re.subn(p, repl, s, count=1)`: the new string and the number of
substitutions made (`0` or `1`). -/
def subn1 (fuel : Nat) (p : Rx) (repl s : List Char) : List Char × Nat :=
  match subn1Aux fuel p repl s with
  | some out => (out, 1)
  | none => (s, 0)

/-- Concatenation of a pattern list. -/
def rxCat : List Rx → Rx
  | [] => .eps
  | [r] => r
  | r :: rs => .seq r (rxCat rs)

/-- A literal string as a pattern. -/
def rxStr (s : String) : Rx :=
  rxCat (s.data.map .lit)

/-! ## `ghtraf/configure.py` — `apply_replacements` -/

/-- The result of one `apply_replacements` call: the returned success
count, the final in-memory content, and the content written back to
the file (`none` when nothing is written). -/
structure ApplyResult where
  success : Nat
  content : List Char
  write : Option (List Char)

/-- One iteration of the replacement loop: format the template against
`config`, run the single-occurrence substitution, and count it when it
matched. -/
def applyStep (fuel : Nat) (config : List (String × String))
    (acc : List Char × Nat) (rep : Rx × String × String) :
    List Char × Nat :=
  let formatted := pyFormat rep.2.1 config
  let sub := subn1 fuel rep.1 formatted.data acc.1
  if sub.2 > 0 then (sub.1, acc.2 + 1) else (acc.1, acc.2)

/-- `apply_replacements(filepath, replacements, config, dry_run)` with
the file read made explicit (`fileExists`, `original`): a missing file
warns and returns 0; otherwise each `(pattern, template, description)`
is applied once in order, and the file is rewritten at the end only
when not in dry-run mode and the content changed. -/
def apply_replacements (fuel : Nat) (fileExists : Bool)
    (original : List Char) (replacements : List (Rx × String × String))
    (config : List (String × String)) (dry_run : Bool) : ApplyResult :=
  if !fileExists then ⟨0, original, none⟩
  else
    let res := replacements.foldl (applyStep fuel config) (original, 0)
    ⟨res.2, res.1, if !dry_run && res.1 != original then some res.1 else none⟩

/-! ## `configure_dashboard` — the fixed dashboard substitution list

The single-quote character is kept out of source text through a named
constant. -/

def squote : Char := Char.ofNat 39

def squoteS : String := String.mk [squote]

/-- Pattern of a JS string-constant line, as in the source regex
`const NAME = [squote][^ squote]+[squote];` (a greedy one-or-more of
any character other than a single quote, between quotes). -/
def rxConstLine (name : String) : Rx :=
  rxCat [rxStr ("const " ++ name ++ " = " ++ squoteS),
    .greedyPlus (.notOf [squote]), rxStr (squoteS ++ ";")]

/-- The ten `(pattern, template, description)` entries of
`configure_dashboard`, in source order.  `github\.com` escapes the dot
(a literal), `.*?` is a lazy star of any-but-newline, `[^"]+?` a lazy
plus of any-but-quote. -/
def dashboardReplacements : List (Rx × String × String) := [
  (rxCat [rxStr "<title>", .lazyStar .anyNoNl,
      rxStr "- Project Statistics</title>"],
    "<title>{display_name_html} - Project Statistics</title>",
    "HTML title"),
  (rxCat [rxStr "href=\"https://github.com/", .lazyPlus (.notOf ['"']),
      rxStr "\" class=\"banner-link\""],
    "href=\"https://github.com/{owner}/{repo}\" class=\"banner-link\"",
    "Banner link URL"),
  (rxCat [rxStr "<p class=\"banner-title\">", .lazyStar .anyNoNl,
      rxStr "</p>"],
    "<p class=\"banner-title\">{display_name_html}</p>",
    "Banner title"),
  (rxCat [rxStr "<a href=\"https://github.com/", .lazyPlus (.notOf ['"']),
      rxStr "\">Repository</a>"],
    "<a href=\"https://github.com/{owner}/{repo}\">Repository</a>",
    "Footer repo link"),
  (rxCat [rxStr "<a href=\"https://github.com/", .lazyPlus (.notOf ['"']),
      rxStr "/releases\">Releases</a>"],
    "<a href=\"https://github.com/{owner}/{repo}/releases\">Releases</a>",
    "Footer releases link"),
  (rxConstLine "GIST_RAW_BASE",
    "const GIST_RAW_BASE = " ++ squoteS ++
      "https://gist.githubusercontent.com/{gh_username}/{badge_gist_id}/raw" ++
      squoteS ++ ";",
    "Gist raw base URL"),
  (rxConstLine "ARCHIVE_GIST_ID",
    "const ARCHIVE_GIST_ID = " ++ squoteS ++ "{archive_gist_id}" ++
      squoteS ++ ";",
    "Archive gist ID"),
  (rxConstLine "REPO_OWNER",
    "const REPO_OWNER = " ++ squoteS ++ "{owner}" ++ squoteS ++ ";",
    "Repo owner"),
  (rxConstLine "REPO_NAME",
    "const REPO_NAME = " ++ squoteS ++ "{repo}" ++ squoteS ++ ";",
    "Repo name"),
  (rxConstLine "REPO_CREATED",
    "const REPO_CREATED = " ++ squoteS ++ "{created}" ++ squoteS ++ ";",
    "Repo creation date")]

/-- `configure_dashboard(config, dashboard_path, dry_run)`: applies the
fixed replacement list to the dashboard file. -/
def configure_dashboard (fuel : Nat) (fileExists : Bool)
    (original : List Char) (config : List (String × String))
    (dry_run : Bool) : ApplyResult :=
  apply_replacements fuel fileExists original dashboardReplacements config
    dry_run

/-! ## `ghtraf/commands/init.py` — the Template Deployer -/

/-- One template file of the deploy loop: its relative path, whether
the packaged source file exists, whether the destination exists. -/
structure TmplFile where
  name : String
  srcExists : Bool
  destExists : Bool

/-- A user answer to the overwrite prompt (`y` / `n` / `a`); the
source loops until one of these is entered. -/
inductive Choice where
  | y : Choice
  | n : Choice
  | a : Choice

/-- Outcome of `init.run`: the copied/skipped counters it prints and
the destinations actually written. -/
structure InitResult where
  copied : Nat
  skipped : Nat
  writes : List String

/-- `_prompt_overwrite(rel_path, non_interactive)`: returns `n`
without consuming input when non-interactive; otherwise consumes the
next answer (an exhausted answer stream stands for a user who keeps
answering `n`). -/
def promptOverwrite (non_interactive : Bool) (answers : List Choice) :
    Choice × List Choice :=
  if non_interactive then (.n, answers)
  else
    match answers with
    | [] => (.n, [])
    | c :: rest => (c, rest)

def addSkip (r : InitResult) : InitResult :=
  ⟨r.copied, r.skipped + 1, r.writes⟩

def addCopy (r : InitResult) : InitResult :=
  ⟨r.copied + 1, r.skipped, r.writes⟩

def addCopyWrite (name : String) (r : InitResult) : InitResult :=
  ⟨r.copied + 1, r.skipped, name :: r.writes⟩

/-- The per-file loop of `init.run`, branch for branch: a missing
packaged source warns and continues (neither counter moves); when the
destination exists and `overwrite_all` is not yet set, `skip_existing`
skips, else a dry run prints `Would prompt` and skips without
consulting the user, else the prompt is consulted and `n` skips while
`a` additionally sets the sticky `overwrite_all`; any path that falls
through to the copy step increments `copied`, printing `Would copy` in
a dry run and writing the destination otherwise.  The `overwrite_all`
flag starts as `force`. -/
def initLoop (dry_run skip_existing non_interactive : Bool) :
    List TmplFile → List Choice → Bool → InitResult
  | [], _, _ => ⟨0, 0, []⟩
  | f :: rest, answers, overwrite_all =>
      if f.srcExists = false then
        initLoop dry_run skip_existing non_interactive rest answers
          overwrite_all
      else if f.destExists && !overwrite_all then
        if skip_existing then
          addSkip (initLoop dry_run skip_existing non_interactive rest answers
            overwrite_all)
        else if dry_run then
          addSkip (initLoop dry_run skip_existing non_interactive rest answers
            overwrite_all)
        else
          let pr := promptOverwrite non_interactive answers
          match pr.1 with
          | .n => addSkip (initLoop dry_run skip_existing non_interactive rest
              pr.2 overwrite_all)
          | .y => addCopyWrite f.name (initLoop dry_run skip_existing
              non_interactive rest pr.2 overwrite_all)
          | .a => addCopyWrite f.name (initLoop dry_run skip_existing
              non_interactive rest pr.2 true)
      else
        if dry_run then
          addCopy (initLoop dry_run skip_existing non_interactive rest answers
            overwrite_all)
        else
          addCopyWrite f.name (initLoop dry_run skip_existing non_interactive
            rest answers overwrite_all)

/-- `init.run(args)` over the template list, with the prompt answers
made explicit. -/
def initRun (dry_run force skip_existing non_interactive : Bool)
    (files : List TmplFile) (answers : List Choice) : InitResult :=
  initLoop dry_run skip_existing non_interactive files answers force

/-! ## Claim C1 — idempotence of template substitution -/

/-- A standard values mapping for the dashboard substitutions. -/
def dashValues : List (String × String) :=
  [("display_name_html", "My Project"), ("owner", "acme"),
   ("repo", "widget"), ("gh_username", "acmeuser"),
   ("badge_gist_id", "badge123"), ("archive_gist_id", "arch456"),
   ("created", "2026-02-03")]

/-- A representative dashboard template: one line for each of the ten
substitution targets, with placeholder tokens as shipped. -/
def reprDashboard : String := String.intercalate "\n" [
  "<title>PLACEHOLDER - Project Statistics</title>",
  "href=\"https://github.com/OWNER/REPO\" class=\"banner-link\"",
  "<p class=\"banner-title\">PLACEHOLDER</p>",
  "<a href=\"https://github.com/OWNER/REPO\">Repository</a>",
  "<a href=\"https://github.com/OWNER/REPO/releases\">Releases</a>",
  "const GIST_RAW_BASE = " ++ squoteS ++
    "https://gist.githubusercontent.com/USER/GISTID/raw" ++ squoteS ++ ";",
  "const ARCHIVE_GIST_ID = " ++ squoteS ++ "ARCHIVEID" ++ squoteS ++ ";",
  "const REPO_OWNER = " ++ squoteS ++ "OWNER" ++ squoteS ++ ";",
  "const REPO_NAME = " ++ squoteS ++ "REPO" ++ squoteS ++ ";",
  "const REPO_CREATED = " ++ squoteS ++ "2025-01-01" ++ squoteS ++ ";"]

/-- `dashValues` with an empty (but non-null) owner value. -/
def dashValuesEmptyOwner : List (String × String) :=
  [("display_name_html", "My Project"), ("owner", ""),
   ("repo", "widget"), ("gh_username", "acmeuser"),
   ("badge_gist_id", "badge123"), ("archive_gist_id", "arch456"),
   ("created", "2026-02-03")]

/-- A target file holding two copies of the REPO_OWNER constant. -/
def twoOwnerLines : List Char :=
  ("const REPO_OWNER = " ++ squoteS ++ "a" ++ squoteS ++
    ";const REPO_OWNER = " ++ squoteS ++ "b" ++ squoteS ++ ";").data

/-- C1 counterexample.  First half: on a file consisting of the title
line alone, the second `configure_dashboard` pass reports 1 matched
substitution, not 0 — the title pattern matches the substituted text
just as well as the placeholder.  Second half: with the non-null
values mapping whose `owner` is the empty string, on a file with two
REPO_OWNER lines, the content after two applications differs from the
content after one (the first pass rewrites the first occurrence to an
empty-quoted constant the pattern can no longer match, so the second
pass rewrites the second occurrence). -/
theorem C1_counterexample :
    (configure_dashboard 800 true
      (configure_dashboard 800 true
        "<title>PLACEHOLDER - Project Statistics</title>".data
        dashValues false).content
      dashValues false).success = 1 ∧
    (configure_dashboard 800 true
      (configure_dashboard 800 true twoOwnerLines
        dashValuesEmptyOwner false).content
      dashValuesEmptyOwner false).content ≠
      (configure_dashboard 800 true twoOwnerLines
        dashValuesEmptyOwner false).content := by
  decide

/-- C1 (amended): applying `configure_dashboard` twice with the same
values is idempotent in file content — and hence performs no second
write — whenever each substituted fragment is matched again by its own
pattern and replaced by itself, as happens on the standard dashboard
template with ordinary (non-empty) values: on the representative
template the first pass matches all ten substitutions and writes the
file, and the second pass reports the same ten matches again (not
zero) while leaving the content unchanged and writing nothing.  The
zero-matches-on-second-pass part of the original claim does not hold,
and for values that make a replacement unmatchable by its own pattern
(such as an empty owner) even content idempotence can fail. -/
theorem C1_template_substitution_idempotence :
    (configure_dashboard 800 true reprDashboard.data dashValues
      false).success = 10 ∧
    (configure_dashboard 800 true reprDashboard.data dashValues
      false).write = some (configure_dashboard 800 true reprDashboard.data
      dashValues false).content ∧
    (configure_dashboard 800 true
      (configure_dashboard 800 true reprDashboard.data dashValues
        false).content dashValues false).success = 10 ∧
    (configure_dashboard 800 true
      (configure_dashboard 800 true reprDashboard.data dashValues
        false).content dashValues false).content =
      (configure_dashboard 800 true reprDashboard.data dashValues
        false).content ∧
    (configure_dashboard 800 true
      (configure_dashboard 800 true reprDashboard.data dashValues
        false).content dashValues false).write = none := by
  decide

/-! ## Claim C7 — dry-run non-destructiveness -/

/-- A dry run of the deploy loop never consults the answer stream. -/
theorem initLoop_dry_answers_irrelevant (skip_existing non_interactive : Bool)
    (files : List TmplFile) (a1 a2 : List Choice) (overwrite_all : Bool) :
    initLoop true skip_existing non_interactive files a1 overwrite_all =
      initLoop true skip_existing non_interactive files a2 overwrite_all := by
  induction files generalizing overwrite_all with
  | nil => rfl
  | cons f rest ih =>
      unfold initLoop
      by_cases hs : f.srcExists = false
      · rw [if_pos hs, if_pos hs, ih]
      · rw [if_neg hs, if_neg hs]
        by_cases hd : (f.destExists && !overwrite_all) = true
        · rw [if_pos hd, if_pos hd]
          by_cases hsk : skip_existing = true
          · rw [if_pos hsk, if_pos hsk, ih]
          · rw [if_neg hsk, if_neg hsk, if_pos rfl, if_pos rfl, ih]
        · rw [if_neg hd, if_neg hd, if_pos rfl, if_pos rfl, ih]

/-- A dry run of the deploy loop writes nothing. -/
theorem initLoop_dry_writes_nil (skip_existing non_interactive : Bool)
    (files : List TmplFile) (answers : List Choice) (overwrite_all : Bool) :
    (initLoop true skip_existing non_interactive files answers
      overwrite_all).writes = [] := by
  induction files generalizing answers overwrite_all with
  | nil => rfl
  | cons f rest ih =>
      unfold initLoop
      by_cases hs : f.srcExists = false
      · rw [if_pos hs]
        exact ih _ _
      · rw [if_neg hs]
        by_cases hd : (f.destExists && !overwrite_all) = true
        · rw [if_pos hd]
          by_cases hsk : skip_existing = true
          · rw [if_pos hsk]
            exact ih _ _
          · rw [if_neg hsk, if_pos rfl]
            exact ih _ _
        · rw [if_neg hd, if_pos rfl]
          exact ih _ _

/-- Under `force`, `skip-existing`, non-interactive mode, or a user who
answers `n` to every prompt, the copied/skipped counters of a dry run
agree with those of a real run. -/
theorem initLoop_counts_eq (skip_existing non_interactive : Bool)
    (files : List TmplFile) (answers : List Choice) (overwrite_all : Bool)
    (h : overwrite_all = true ∨ skip_existing = true ∨
      non_interactive = true ∨ ∀ c ∈ answers, c = Choice.n) :
    (initLoop true skip_existing non_interactive files answers
        overwrite_all).copied =
      (initLoop false skip_existing non_interactive files answers
        overwrite_all).copied ∧
    (initLoop true skip_existing non_interactive files answers
        overwrite_all).skipped =
      (initLoop false skip_existing non_interactive files answers
        overwrite_all).skipped := by
  induction files generalizing answers overwrite_all with
  | nil => exact ⟨rfl, rfl⟩
  | cons f rest ih =>
      unfold initLoop
      by_cases hs : f.srcExists = false
      · rw [if_pos hs, if_pos hs]
        exact ih _ _ h
      · rw [if_neg hs, if_neg hs]
        by_cases hd : (f.destExists && !overwrite_all) = true
        · rw [if_pos hd, if_pos hd]
          have how : overwrite_all = false := by
            cases ho : overwrite_all
            · rfl
            · rw [ho] at hd; simp at hd
          by_cases hsk : skip_existing = true
          · rw [if_pos hsk, if_pos hsk]
            have := ih answers overwrite_all h
            exact ⟨by simp [addSkip, this.1], by simp [addSkip, this.2]⟩
          · rw [if_neg hsk, if_neg hsk, if_pos rfl, if_neg (by simp)]
            by_cases hni : non_interactive = true
            · have hpr : promptOverwrite non_interactive answers =
                  (Choice.n, answers) := by
                unfold promptOverwrite
                rw [if_pos hni]
              rw [hpr]
              have := ih answers overwrite_all h
              exact ⟨by simp [addSkip, this.1], by simp [addSkip, this.2]⟩
            · have hall : ∀ c ∈ answers, c = Choice.n := by
                rcases h with h | h | h | h
                · rw [how] at h; cases h
                · exact absurd h hsk
                · exact absurd h hni
                · exact h
              cases hans : answers with
              | nil =>
                  have hpr : promptOverwrite non_interactive [] =
                      (Choice.n, []) := by
                    unfold promptOverwrite
                    rw [if_neg hni]
                  rw [hpr]
                  have h2 := ih [] overwrite_all
                    (Or.inr (Or.inr (Or.inr (fun c hc => absurd hc
                      (List.not_mem_nil c)))))
                  exact ⟨by simp [addSkip, h2.1], by simp [addSkip, h2.2]⟩
              | cons c rest' =>
                  have hc : c = Choice.n := hall c (hans ▸ List.mem_cons_self c rest')
                  have hpr : promptOverwrite non_interactive (c :: rest') =
                      (Choice.n, rest') := by
                    unfold promptOverwrite
                    rw [if_neg hni, hc]
                  rw [hpr]
                  have hall' : ∀ x ∈ rest', x = Choice.n := fun x hx =>
                    hall x (hans ▸ List.mem_cons_of_mem c hx)
                  have h2 := ih rest' overwrite_all
                    (Or.inr (Or.inr (Or.inr hall')))
                  have hdry := initLoop_dry_answers_irrelevant skip_existing
                    non_interactive rest (c :: rest') rest' overwrite_all
                  rw [hdry]
                  exact ⟨by simp [addSkip, h2.1], by simp [addSkip, h2.2]⟩
        · rw [if_neg hd, if_neg hd, if_pos rfl, if_neg (by simp)]
          have := ih answers overwrite_all h
          exact ⟨by simp [addCopy, addCopyWrite, this.1],
            by simp [addCopy, addCopyWrite, this.2]⟩

/-- C7 counterexample: in interactive default mode with an existing
destination and a user answering `y`, the dry run reports the file as
skipped (it never prompts) while the real run with the same inputs
copies and writes it — the would-copy count does not match what the
real run reports as written. -/
theorem C7_counterexample :
    (initRun true false false false [⟨"traffic-badges.yml", true, true⟩]
      [.y]).copied = 0 ∧
    (initRun true false false false [⟨"traffic-badges.yml", true, true⟩]
      [.y]).skipped = 1 ∧
    (initRun false false false false [⟨"traffic-badges.yml", true, true⟩]
      [.y]).copied = 1 ∧
    (initRun false false false false [⟨"traffic-badges.yml", true, true⟩]
      [.y]).skipped = 0 ∧
    (initRun false false false false [⟨"traffic-badges.yml", true, true⟩]
      [.y]).writes = ["traffic-badges.yml"] :=
  ⟨rfl, rfl, rfl, rfl, rfl⟩

/-- C7 (amended): dry-run invocations perform zero filesystem writes
for every input, for both the Template Configurator and the Template
Deployer, and a dry deploy never consults the interactive answer
stream (its whole outcome is independent of it); the Configurator's
returned match count always equals the non-dry-run count; and the
Deployer's copied/skipped counts equal the non-dry-run counts under
`force`, `skip-existing`, non-interactive mode, or a user declining
every overwrite prompt — but not when an interactive overwrite prompt
is answered affirmatively, since the dry run counts such files as
skipped. -/
theorem C7_dry_run_nondestructive (fuel : Nat) (fileExists : Bool)
    (original : List Char) (replacements : List (Rx × String × String))
    (config : List (String × String))
    (force skip_existing non_interactive : Bool) (files : List TmplFile)
    (answers answers2 : List Choice)
    (h : force = true ∨ skip_existing = true ∨ non_interactive = true ∨
      ∀ c ∈ answers, c = Choice.n) :
    (apply_replacements fuel fileExists original replacements config
      true).write = none ∧
    (apply_replacements fuel fileExists original replacements config
        true).success =
      (apply_replacements fuel fileExists original replacements config
        false).success ∧
    (initRun true force skip_existing non_interactive files answers).writes =
      [] ∧
    initRun true force skip_existing non_interactive files answers =
      initRun true force skip_existing non_interactive files answers2 ∧
    (initRun true force skip_existing non_interactive files answers).copied =
      (initRun false force skip_existing non_interactive files
        answers).copied ∧
    (initRun true force skip_existing non_interactive files answers).skipped =
      (initRun false force skip_existing non_interactive files
        answers).skipped := by
  refine ⟨?_, ?_, ?_, ?_, ?_, ?_⟩
  · unfold apply_replacements
    cases fileExists <;> rfl
  · unfold apply_replacements
    cases fileExists <;> rfl
  · exact initLoop_dry_writes_nil _ _ _ _ _
  · exact initLoop_dry_answers_irrelevant skip_existing non_interactive files
      answers answers2 force
  · exact (initLoop_counts_eq skip_existing non_interactive files answers
      force h).1
  · exact (initLoop_counts_eq skip_existing non_interactive files answers
      force h).2

/-- C7 witness: concrete non-interactive deploy over one new and one
existing file, plus a concrete dry configurator run. -/
theorem C7_witness :
    (apply_replacements 800 true "AAA".data [] [] true).write = none ∧
    (apply_replacements 800 true "AAA".data [] [] true).success =
      (apply_replacements 800 true "AAA".data [] [] false).success ∧
    (initRun true false false true
      [⟨"index.html", true, false⟩, ⟨"README.md", true, true⟩] []).writes =
      [] ∧
    initRun true false false true
      [⟨"index.html", true, false⟩, ⟨"README.md", true, true⟩] [] =
      initRun true false false true
        [⟨"index.html", true, false⟩, ⟨"README.md", true, true⟩] [.y] ∧
    (initRun true false false true
      [⟨"index.html", true, false⟩, ⟨"README.md", true, true⟩] []).copied =
      (initRun false false false true
        [⟨"index.html", true, false⟩, ⟨"README.md", true, true⟩] []).copied ∧
    (initRun true false false true
      [⟨"index.html", true, false⟩, ⟨"README.md", true, true⟩] []).skipped =
      (initRun false false false true
        [⟨"index.html", true, false⟩, ⟨"README.md", true, true⟩] []).skipped :=
  C7_dry_run_nondestructive 800 true "AAA".data [] [] false false true
    [⟨"index.html", true, false⟩, ⟨"README.md", true, true⟩] [] [.y]
    (Or.inr (Or.inr (Or.inl rfl)))

end Ghtraf
